import Mathlib

/-!
Verification development for the drawer-binify geometry core.

This file gives a shallow embedding, over the rationals, of the grid
partitioning, print-bed packing, dimension validation, bin assembly and
model-cache lookup logic of the repository, and proves or refutes the
frozen behavioural claims about them.

Conventions of the embedding:
* Python floats are modelled as rationals (`ℚ`); arithmetic in the source
  is plain IEEE arithmetic on small decimal constants, modelled exactly.
* Python `int(x)` (truncation toward zero) is `pyInt`; `math.ceil` is `⌈·⌉`.
* Python lists are Lean lists; `for` loops with `break` become bounded
  recursion; `while` loops become fuel-indexed recursion (the fuel is
  generous; claims about the packer are settled on concrete inputs where
  the loop terminates well within the fuel).
* CAD kernel shapes are abstracted to their null/valid flags; kernel
  operations that can fail are parameters returning `Option`.
* The FreeCAD global document registry is a list of open document names.
-/

/-- Python `int(x)` on a rational: truncation toward zero. -/
def pyInt (q : ℚ) : ℤ := if q < 0 then ⌈q⌉ else ⌊q⌋

/-- Numeric constants of `GridfinityConfig` (backend/core/gridfinity_config.py). -/
structure GridfinityConfig where
  PRINT_BED_WIDTH : ℚ
  PRINT_BED_DEPTH : ℚ
  GRID_SIZE : ℚ
  TOLERANCE : ℚ
  WALL_THICKNESS : ℚ
  CORNER_RADIUS : ℚ
  BASE_HEIGHT : ℚ
  MIN_UNIT_SIZE : ℚ
  KNOB_HEIGHT : ℚ
  BIN_INSET : ℚ
  WALL_HEIGHT : ℚ
  LIP_HEIGHT : ℚ
  BOTTOM_THICKNESS : ℚ
  MIN_WIDTH : ℚ
  MIN_DEPTH : ℚ
  MIN_HEIGHT : ℚ
  DIMENSION_TOLERANCE : ℚ
deriving DecidableEq, Repr

/-- The dataclass default values of `GridfinityConfig`. -/
def defaultConfig : GridfinityConfig where
  PRINT_BED_WIDTH := 220
  PRINT_BED_DEPTH := 220
  GRID_SIZE := 42
  TOLERANCE := 0.5
  WALL_THICKNESS := 1.2
  CORNER_RADIUS := 4
  BASE_HEIGHT := 5
  MIN_UNIT_SIZE := 15
  KNOB_HEIGHT := 4.75
  BIN_INSET := 0.25
  WALL_HEIGHT := 5
  LIP_HEIGHT := 4.3
  BOTTOM_THICKNESS := 0.8
  MIN_WIDTH := 15
  MIN_DEPTH := 15
  MIN_HEIGHT := 10
  DIMENSION_TOLERANCE := 0.1

/-- `Unit` of gridfinity_baseplate.py (named `GUnit` since `Unit` is taken). -/
structure GUnit where
  width : ℚ
  depth : ℚ
  x_offset : ℚ
  y_offset : ℚ
  is_standard : Bool
deriving DecidableEq, Repr

/-- `self.num_squares_x` from `GridfinityBaseplate.__init__`:
`math.ceil((drawer_width - 2*TOLERANCE) / GRID_SIZE)`. -/
def num_squares_x (cfg : GridfinityConfig) (drawer_width : ℚ) : ℤ :=
  ⌈(drawer_width - 2 * cfg.TOLERANCE) / cfg.GRID_SIZE⌉

/-- `self.num_squares_y` from `GridfinityBaseplate.__init__`. -/
def num_squares_y (cfg : GridfinityConfig) (drawer_depth : ℚ) : ℤ :=
  ⌈(drawer_depth - 2 * cfg.TOLERANCE) / cfg.GRID_SIZE⌉

/-- The body of the double loop in `GridfinityBaseplate.grid_divider`: the
unit appended at grid position `(x, y)`. -/
def grid_cell (cfg : GridfinityConfig) (drawer_width drawer_depth : ℚ)
    (y x : ℕ) : GUnit :=
  let standard_squares_x := pyInt (drawer_width / cfg.GRID_SIZE)
  let standard_squares_y := pyInt (drawer_depth / cfg.GRID_SIZE)
  let remaining_width := drawer_width - standard_squares_x * cfg.GRID_SIZE
  let remaining_depth := drawer_depth - standard_squares_y * cfg.GRID_SIZE
  let x_pos : ℚ := (x : ℚ) * cfg.GRID_SIZE
  let width : ℚ :=
    if (x : ℤ) < standard_squares_x then cfg.GRID_SIZE
    else if 0 < remaining_width then remaining_width else cfg.GRID_SIZE
  let yd : ℚ × ℚ :=
    if 0 < remaining_depth ∧ remaining_depth < cfg.GRID_SIZE then
      if y = 0 then
        (0, if 0 < remaining_depth then remaining_depth else cfg.GRID_SIZE)
      else
        (remaining_depth + ((y : ℚ) - 1) * cfg.GRID_SIZE, cfg.GRID_SIZE)
    else
      ((y : ℚ) * cfg.GRID_SIZE,
        if (y : ℤ) < standard_squares_y then cfg.GRID_SIZE
        else if 0 < remaining_depth then remaining_depth else cfg.GRID_SIZE)
  { width := width, depth := yd.2, x_offset := x_pos, y_offset := yd.1,
    is_standard := decide (width = cfg.GRID_SIZE ∧ yd.2 = cfg.GRID_SIZE) }

/-- `GridfinityBaseplate.grid_divider`: the nested `for y / for x` loops,
appending `grid_cell` at each position. -/
def grid_divider (cfg : GridfinityConfig) (drawer_width drawer_depth : ℚ) :
    List GUnit :=
  ((List.range (num_squares_y cfg drawer_depth).toNat).map (fun y =>
    (List.range (num_squares_x cfg drawer_width).toNat).map
      (grid_cell cfg drawer_width drawer_depth y))).flatten

/-- The x-offset of column `x` in `grid_divider` output: `x * GRID_SIZE`. -/
def col_lo (cfg : GridfinityConfig) (x : ℕ) : ℚ := (x : ℚ) * cfg.GRID_SIZE

/-- The width assigned to column `x` in `grid_divider` output. -/
def col_w (cfg : GridfinityConfig) (W : ℚ) (x : ℕ) : ℚ :=
  if (x : ℤ) < pyInt (W / cfg.GRID_SIZE) then cfg.GRID_SIZE
  else if 0 < W - pyInt (W / cfg.GRID_SIZE) * cfg.GRID_SIZE then
    W - pyInt (W / cfg.GRID_SIZE) * cfg.GRID_SIZE
  else cfg.GRID_SIZE

/-- The y-offset of row `y` in `grid_divider` output. -/
def row_lo (cfg : GridfinityConfig) (D : ℚ) (y : ℕ) : ℚ :=
  if 0 < D - pyInt (D / cfg.GRID_SIZE) * cfg.GRID_SIZE ∧
      D - pyInt (D / cfg.GRID_SIZE) * cfg.GRID_SIZE < cfg.GRID_SIZE then
    (if y = 0 then 0 else
      D - pyInt (D / cfg.GRID_SIZE) * cfg.GRID_SIZE + ((y : ℚ) - 1) * cfg.GRID_SIZE)
  else (y : ℚ) * cfg.GRID_SIZE

/-- The depth assigned to row `y` in `grid_divider` output. -/
def row_w (cfg : GridfinityConfig) (D : ℚ) (y : ℕ) : ℚ :=
  if 0 < D - pyInt (D / cfg.GRID_SIZE) * cfg.GRID_SIZE ∧
      D - pyInt (D / cfg.GRID_SIZE) * cfg.GRID_SIZE < cfg.GRID_SIZE then
    (if y = 0 then
      (if 0 < D - pyInt (D / cfg.GRID_SIZE) * cfg.GRID_SIZE then
        D - pyInt (D / cfg.GRID_SIZE) * cfg.GRID_SIZE
      else cfg.GRID_SIZE)
    else cfg.GRID_SIZE)
  else if (y : ℤ) < pyInt (D / cfg.GRID_SIZE) then cfg.GRID_SIZE
  else if 0 < D - pyInt (D / cfg.GRID_SIZE) * cfg.GRID_SIZE then
    D - pyInt (D / cfg.GRID_SIZE) * cfg.GRID_SIZE
  else cfg.GRID_SIZE

theorem grid_cell_eq (cfg : GridfinityConfig) (W D : ℚ) (y x : ℕ) :
    grid_cell cfg W D y x =
      { width := col_w cfg W x, depth := row_w cfg D y,
        x_offset := col_lo cfg x, y_offset := row_lo cfg D y,
        is_standard :=
          decide (col_w cfg W x = cfg.GRID_SIZE ∧ row_w cfg D y = cfg.GRID_SIZE) } := by
  simp only [grid_cell, col_w, col_lo, row_lo, row_w]
  split_ifs <;> rfl

/-- If exactly one index below `n` satisfies `p`, the count over `range n` is 1. -/
theorem countP_range_one (n : ℕ) (p : ℕ → Bool)
    (h : ∃ i, i < n ∧ p i = true ∧ ∀ j, j < n → p j = true → j = i) :
    (List.range n).countP p = 1 := by
  induction n with
  | zero => obtain ⟨i, hi, _⟩ := h; omega
  | succ n ih =>
    obtain ⟨i, hin, hpi, huniq⟩ := h
    rw [List.range_succ, List.countP_append]
    by_cases hpn : p n = true
    · have hzero : (List.range n).countP p = 0 := by
        rw [List.countP_eq_zero]
        intro a ha hpa
        have han : a < n := List.mem_range.mp ha
        have h1 : a = i := huniq a (Nat.lt_succ_of_lt han) hpa
        have h2 : n = i := huniq n (Nat.lt_succ_self n) hpn
        omega
      simp [hzero, hpn]
    · have hin' : i < n := by
        rcases Nat.lt_succ_iff_lt_or_eq.mp hin with h | h
        · exact h
        · subst h; simp [hpi] at hpn
      have hcount : (List.range n).countP p = 1 :=
        ih ⟨i, hin', hpi, fun j hj hpj => huniq j (Nat.lt_succ_of_lt hj) hpj⟩
      simp [hcount, hpn]

/-- Counting with an `if` summand equals `countP`. -/
theorem sum_map_ite_countP {α : Type} (l : List α) (b : α → Prop)
    [DecidablePred b] :
    (l.map (fun a => if b a then (1 : ℕ) else 0)).sum
      = l.countP (fun a => decide (b a)) := by
  induction l with
  | nil => simp
  | cons a t ih => by_cases h : b a <;> simp [List.countP_cons, h, ih, Nat.add_comm]

/-- Starts of an abutting run of intervals are monotone. -/
theorem abut_mono (n : ℕ) (lo w : ℕ → ℚ)
    (habut : ∀ i, i + 1 < n → lo (i + 1) = lo i + w i)
    (hpos : ∀ i, i < n → 0 < w i) :
    ∀ i j, i ≤ j → j < n → lo i ≤ lo j := by
  intro i j hij hjn
  induction j, hij using Nat.le_induction with
  | base => exact le_refl _
  | succ m hm ih =>
    have h1 : lo i ≤ lo m := ih (by omega)
    have h2 : lo m ≤ lo (m + 1) := by
      rw [habut m (by omega)]
      have := hpos m (by omega)
      linarith
    exact le_trans h1 h2

/-- An earlier interval in an abutting run ends before a later one starts. -/
theorem abut_sep (n : ℕ) (lo w : ℕ → ℚ)
    (habut : ∀ i, i + 1 < n → lo (i + 1) = lo i + w i)
    (hpos : ∀ i, i < n → 0 < w i) :
    ∀ i j, i < j → j < n → lo i + w i ≤ lo j := by
  intro i j hij hjn
  have h1 : lo (i + 1) ≤ lo j := abut_mono n lo w habut hpos (i + 1) j hij hjn
  rw [habut i (by omega)] at h1
  exact h1

/-- Every interval of an abutting run starting at 0 and ending at `L`
stays within `[0, L]`. -/
theorem abut_bounds (n : ℕ) (lo w : ℕ → ℚ) (L : ℚ)
    (hn : 0 < n) (h0 : lo 0 = 0)
    (habut : ∀ i, i + 1 < n → lo (i + 1) = lo i + w i)
    (hpos : ∀ i, i < n → 0 < w i)
    (hend : lo (n - 1) + w (n - 1) = L) :
    ∀ i, i < n → 0 ≤ lo i ∧ lo i + w i ≤ L := by
  intro i hin
  constructor
  · have := abut_mono n lo w habut hpos 0 i (Nat.zero_le i) hin
    rw [h0] at this
    exact this
  · by_cases hlast : i = n - 1
    · rw [hlast, hend]
    · have hsep : lo i + w i ≤ lo (n - 1) :=
        abut_sep n lo w habut hpos i (n - 1) (by omega) (by omega)
      have hmono : lo (n - 1) ≤ lo (n - 1) + w (n - 1) := by
        have := hpos (n - 1) (by omega)
        linarith
      rw [hend] at hmono
      linarith

/-- A point of `[0, L)` lies in exactly one interval of an abutting run. -/
theorem abut_cover_unique (n : ℕ) (lo w : ℕ → ℚ) (L p : ℚ)
    (hn : 0 < n) (h0 : lo 0 = 0)
    (habut : ∀ i, i + 1 < n → lo (i + 1) = lo i + w i)
    (hpos : ∀ i, i < n → 0 < w i)
    (hend : lo (n - 1) + w (n - 1) = L)
    (hp0 : 0 ≤ p) (hpL : p < L) :
    ∃ i, i < n ∧ (lo i ≤ p ∧ p < lo i + w i) ∧
      ∀ j, j < n → lo j ≤ p → p < lo j + w j → j = i := by
  classical
  set P : ℕ → Prop := fun k => lo k ≤ p with hP
  have hP0 : P 0 := by rw [hP]; simpa [h0] using hp0
  set i := Nat.findGreatest P (n - 1) with hi_def
  have hile : i ≤ n - 1 := Nat.findGreatest_le (n - 1)
  have hin : i < n := by omega
  have hPi : P i := Nat.findGreatest_spec (Nat.zero_le _) hP0
  have hup : p < lo i + w i := by
    by_cases hlast : i = n - 1
    · rw [hlast, hend]; exact hpL
    · have hnot : ¬P (i + 1) :=
        @Nat.findGreatest_is_greatest (i + 1) P _ (n - 1) (by omega) (by omega)
      have hlt : p < lo (i + 1) := by
        have := not_le.mp hnot
        exact this
      rw [habut i (by omega)] at hlt
      exact hlt
  refine ⟨i, hin, ⟨hPi, hup⟩, ?_⟩
  intro j hjn hjlo hjup
  rcases lt_trichotomy j i with h | h | h
  · exfalso
    have := abut_sep n lo w habut hpos j i h hin
    linarith
  · exact h
  · exfalso
    have := abut_sep n lo w habut hpos i j h hjn
    linarith

/-- On nonnegative rationals Python `int` truncation is the floor. -/
theorem pyInt_eq_floor (q : ℚ) (hq : 0 ≤ q) : pyInt q = ⌊q⌋ := by
  unfold pyInt
  rw [if_neg (not_lt.mpr hq)]

/-- Floor division and remainder facts used throughout the grid analysis:
for `0 < g` and `0 < W`, `int(W/g)` is the floor, the remainder
`W - floor(W/g)*g` lies in `[0, g)`, and the ceiling of `W/g` is the floor
when the remainder vanishes and the floor plus one otherwise. -/
theorem floor_rem_facts (W g : ℚ) (hg : 0 < g) (hW : 0 < W) :
    pyInt (W / g) = ⌊W / g⌋ ∧
    0 ≤ W - ⌊W / g⌋ * g ∧ W - ⌊W / g⌋ * g < g ∧
    (W - ⌊W / g⌋ * g = 0 → (⌈W / g⌉ : ℤ) = ⌊W / g⌋) ∧
    (0 < W - ⌊W / g⌋ * g → (⌈W / g⌉ : ℤ) = ⌊W / g⌋ + 1) := by
  have hq : 0 ≤ W / g := le_of_lt (div_pos hW hg)
  have hcancel : W / g * g = W := div_mul_cancel₀ W (ne_of_gt hg)
  have h1 : ((⌊W / g⌋ : ℚ)) ≤ W / g := Int.floor_le _
  have h2 : W / g < (⌊W / g⌋ : ℚ) + 1 := Int.lt_floor_add_one _
  have h1' : (⌊W / g⌋ : ℚ) * g ≤ W := by
    calc (⌊W / g⌋ : ℚ) * g ≤ (W / g) * g := by
          exact mul_le_mul_of_nonneg_right h1 (le_of_lt hg)
      _ = W := hcancel
  have h2' : W < ((⌊W / g⌋ : ℚ) + 1) * g := by
    calc W = (W / g) * g := hcancel.symm
      _ < ((⌊W / g⌋ : ℚ) + 1) * g := by
          exact mul_lt_mul_of_pos_right h2 hg
  refine ⟨pyInt_eq_floor _ hq, by linarith, by nlinarith, ?_, ?_⟩
  · intro hrem
    have hWg : W / g = (⌊W / g⌋ : ℚ) := by
      have hW' : W = (⌊W / g⌋ : ℚ) * g := by linarith
      rw [hW']
      field_simp
    calc (⌈W / g⌉ : ℤ) = ⌈((⌊W / g⌋ : ℤ) : ℚ)⌉ := by rw [← hWg]
      _ = ⌊W / g⌋ := Int.ceil_intCast _
  · intro hrem
    have hlt : (⌊W / g⌋ : ℚ) < W / g := by
      rw [lt_div_iff₀ hg]
      linarith
    rw [Int.ceil_eq_iff]
    constructor
    · push_cast
      linarith
    · push_cast
      linarith

/-- Sum of a constant map over `range`. -/
theorem map_const_sum (n m : ℕ) : ((List.range n).map (fun _ : ℕ => m)).sum = n * m := by
  induction n with
  | zero => simp
  | succ k ih =>
    rw [List.range_succ, List.map_append, List.sum_append]
    simp [ih, Nat.succ_mul]

/-- The number of cells produced by `grid_divider` is the product of the
loop bounds `num_squares_x * num_squares_y`. -/
theorem grid_divider_length_eq (cfg : GridfinityConfig) (W D : ℚ) :
    (grid_divider cfg W D).length
      = (num_squares_x cfg W).toNat * (num_squares_y cfg D).toNat := by
  unfold grid_divider
  rw [List.length_flatten, List.map_map]
  have hconst : (List.length ∘ fun y : ℕ =>
      List.map (grid_cell cfg W D y) (List.range (num_squares_x cfg W).toNat))
      = fun _ : ℕ => (num_squares_x cfg W).toNat := by
    funext y
    simp
  rw [hconst, map_const_sum, Nat.mul_comm]

/-- Claim C2, amended: `grid_divider` returns exactly
`ceil((W - 2*TOLERANCE)/grid) * ceil((D - 2*TOLERANCE)/grid)` cells (the
loop bounds `num_squares_x/y` subtract twice the configured tolerance
before dividing), not `ceil(W/grid) * ceil(D/grid)`. -/
theorem grid_divider_count (cfg : GridfinityConfig) (W D : ℚ) :
    (grid_divider cfg W D).length
      = (⌈(W - 2 * cfg.TOLERANCE) / cfg.GRID_SIZE⌉.toNat)
        * (⌈(D - 2 * cfg.TOLERANCE) / cfg.GRID_SIZE⌉.toNat) := by
  rw [grid_divider_length_eq]
  rfl

/-- Claim C2 as stated fails on the code: for a 43x42 drawer with the
default 42mm grid, `grid_divider` returns 1 cell while
`ceil(43/42) * ceil(42/42) = 2`. -/
theorem grid_divider_count_counterexample :
    (grid_divider defaultConfig 43 42).length = 1 ∧
    ⌈(43 : ℚ) / 42⌉.toNat * ⌈(42 : ℚ) / 42⌉.toNat = 2 := by
  constructor
  · rw [grid_divider_length_eq]
    have h1 : num_squares_x defaultConfig 43 = 1 := by
      show (⌈((43 : ℚ) - 2 * 0.5) / 42⌉ : ℤ) = 1
      norm_num
    have h2 : num_squares_y defaultConfig 42 = 1 := by
      show (⌈((42 : ℚ) - 2 * 0.5) / 42⌉ : ℤ) = 1
      norm_num [Int.ceil_eq_iff]
    rw [h1, h2]
    rfl
  · have h1 : (⌈(43 : ℚ) / 42⌉ : ℤ) = 2 := by
      norm_num [Int.ceil_eq_iff]
    have h2 : (⌈(42 : ℚ) / 42⌉ : ℤ) = 1 := by norm_num
    rw [h1, h2]
    rfl

/-- Column layout package: when the loop bound `num_squares_x` equals the
true ceiling `ceil(W/g)`, the columns of `grid_divider` form an abutting
run of positive-width intervals starting at 0 and ending at `W`. -/
theorem col_axis_package (cfg : GridfinityConfig) (W : ℚ)
    (hg : 0 < cfg.GRID_SIZE) (hW : 0 < W)
    (hNX : num_squares_x cfg W = ⌈W / cfg.GRID_SIZE⌉) :
    0 < (num_squares_x cfg W).toNat ∧
    col_lo cfg 0 = 0 ∧
    (∀ i, i + 1 < (num_squares_x cfg W).toNat →
      col_lo cfg (i + 1) = col_lo cfg i + col_w cfg W i) ∧
    (∀ i, i < (num_squares_x cfg W).toNat → 0 < col_w cfg W i) ∧
    col_lo cfg ((num_squares_x cfg W).toNat - 1)
      + col_w cfg W ((num_squares_x cfg W).toNat - 1) = W := by
  obtain ⟨hpy, hrem0, hremlt, hceil0, hceil1⟩ :=
    floor_rem_facts W cfg.GRID_SIZE hg hW
  have hceilpos : 0 < ⌈W / cfg.GRID_SIZE⌉ :=
    Int.ceil_pos.mpr (div_pos hW hg)
  have hfloor0 : 0 ≤ ⌊W / cfg.GRID_SIZE⌋ :=
    Int.floor_nonneg.mpr (le_of_lt (div_pos hW hg))
  have hceille : ⌈W / cfg.GRID_SIZE⌉ ≤ ⌊W / cfg.GRID_SIZE⌋ + 1 :=
    Int.ceil_le_floor_add_one _
  have hnxZ : ((num_squares_x cfg W).toNat : ℤ) = ⌈W / cfg.GRID_SIZE⌉ := by
    rw [← hNX]
    exact Int.toNat_of_nonneg (by omega)
  refine ⟨by omega, by simp [col_lo], ?_, ?_, ?_⟩
  · intro i hi
    have hix : (i : ℤ) < ⌊W / cfg.GRID_SIZE⌋ := by omega
    have hwi : col_w cfg W i = cfg.GRID_SIZE := by
      unfold col_w
      rw [hpy, if_pos hix]
    rw [hwi]
    unfold col_lo
    push_cast
    ring
  · intro i hi
    unfold col_w
    rw [hpy]
    split_ifs with h1 h2
    · exact hg
    · exact h2
    · exact hg
  · by_cases hrw : 0 < W - ⌊W / cfg.GRID_SIZE⌋ * cfg.GRID_SIZE
    · have hc : (⌈W / cfg.GRID_SIZE⌉ : ℤ) = ⌊W / cfg.GRID_SIZE⌋ + 1 := hceil1 hrw
      have hlast : (((num_squares_x cfg W).toNat - 1 : ℕ) : ℤ) = ⌊W / cfg.GRID_SIZE⌋ := by
        omega
      have hwlast : col_w cfg W ((num_squares_x cfg W).toNat - 1)
          = W - ⌊W / cfg.GRID_SIZE⌋ * cfg.GRID_SIZE := by
        unfold col_w
        rw [hpy, if_neg (by omega), if_pos hrw]
      rw [hwlast]
      unfold col_lo
      have hcast : ((((num_squares_x cfg W).toNat - 1 : ℕ)) : ℚ)
          = ((⌊W / cfg.GRID_SIZE⌋ : ℤ) : ℚ) := by
        exact_mod_cast congrArg (fun z : ℤ => (z : ℚ)) hlast
      rw [hcast]
      ring
    · have hrw0 : W - ⌊W / cfg.GRID_SIZE⌋ * cfg.GRID_SIZE = 0 := by linarith
      have hc : (⌈W / cfg.GRID_SIZE⌉ : ℤ) = ⌊W / cfg.GRID_SIZE⌋ := hceil0 hrw0
      have hfloorpos : 0 < ⌊W / cfg.GRID_SIZE⌋ := by omega
      have hlast : (((num_squares_x cfg W).toNat - 1 : ℕ) : ℤ) = ⌊W / cfg.GRID_SIZE⌋ - 1 := by
        omega
      have hwlast : col_w cfg W ((num_squares_x cfg W).toNat - 1) = cfg.GRID_SIZE := by
        unfold col_w
        rw [hpy, if_pos (by omega)]
      rw [hwlast]
      unfold col_lo
      have hcast : ((((num_squares_x cfg W).toNat - 1 : ℕ)) : ℚ)
          = ((⌊W / cfg.GRID_SIZE⌋ : ℤ) : ℚ) - 1 := by
        have := congrArg (fun z : ℤ => (z : ℚ)) hlast
        push_cast at this
        exact_mod_cast this
      rw [hcast]
      have hWeq : W = (⌊W / cfg.GRID_SIZE⌋ : ℚ) * cfg.GRID_SIZE := by linarith
      linear_combination -hWeq

/-- Row layout package: when the loop bound `num_squares_y` equals the
true ceiling `ceil(D/g)`, the rows of `grid_divider` (leftover depth-row
first, remaining rows shifted) form an abutting run of positive-depth
intervals starting at 0 and ending at `D`. -/
theorem row_axis_package (cfg : GridfinityConfig) (D : ℚ)
    (hg : 0 < cfg.GRID_SIZE) (hD : 0 < D)
    (hNY : num_squares_y cfg D = ⌈D / cfg.GRID_SIZE⌉) :
    0 < (num_squares_y cfg D).toNat ∧
    row_lo cfg D 0 = 0 ∧
    (∀ i, i + 1 < (num_squares_y cfg D).toNat →
      row_lo cfg D (i + 1) = row_lo cfg D i + row_w cfg D i) ∧
    (∀ i, i < (num_squares_y cfg D).toNat → 0 < row_w cfg D i) ∧
    row_lo cfg D ((num_squares_y cfg D).toNat - 1)
      + row_w cfg D ((num_squares_y cfg D).toNat - 1) = D := by
  obtain ⟨hpy, hrem0, hremlt, hceil0, hceil1⟩ :=
    floor_rem_facts D cfg.GRID_SIZE hg hD
  have hceilpos : 0 < ⌈D / cfg.GRID_SIZE⌉ :=
    Int.ceil_pos.mpr (div_pos hD hg)
  have hfloor0 : 0 ≤ ⌊D / cfg.GRID_SIZE⌋ :=
    Int.floor_nonneg.mpr (le_of_lt (div_pos hD hg))
  have hnyZ : ((num_squares_y cfg D).toNat : ℤ) = ⌈D / cfg.GRID_SIZE⌉ := by
    rw [← hNY]
    exact Int.toNat_of_nonneg (by omega)
  refine ⟨by omega, by simp [row_lo], ?_, ?_, ?_⟩
  · intro i hi
    simp only [row_lo, row_w, hpy]
    by_cases hcond : 0 < D - (⌊D / cfg.GRID_SIZE⌋ : ℚ) * cfg.GRID_SIZE ∧
        D - (⌊D / cfg.GRID_SIZE⌋ : ℚ) * cfg.GRID_SIZE < cfg.GRID_SIZE
    · simp only [if_pos hcond, if_neg (Nat.succ_ne_zero i)]
      by_cases hi0 : i = 0
      · subst hi0
        simp only [if_pos rfl, if_pos hcond.1]
        push_cast
        ring
      · simp only [if_neg hi0]
        push_cast
        ring
    · have hrd0 : D - (⌊D / cfg.GRID_SIZE⌋ : ℚ) * cfg.GRID_SIZE = 0 := by
        by_cases hp : 0 < D - (⌊D / cfg.GRID_SIZE⌋ : ℚ) * cfg.GRID_SIZE
        · exact absurd ⟨hp, hremlt⟩ hcond
        · linarith
      have hc : (⌈D / cfg.GRID_SIZE⌉ : ℤ) = ⌊D / cfg.GRID_SIZE⌋ := hceil0 hrd0
      have hisy : (i : ℤ) < ⌊D / cfg.GRID_SIZE⌋ := by omega
      simp only [if_neg hcond, if_pos hisy]
      push_cast
      ring
  · intro i hi
    simp only [row_w, hpy]
    split_ifs with h1 h2 h3 h4 h5
    · exact h3
    · exact hg
    · exact hg
    · exact hg
    · exact h5
    · exact hg
  · simp only [row_lo, row_w, hpy]
    by_cases hrd : 0 < D - (⌊D / cfg.GRID_SIZE⌋ : ℚ) * cfg.GRID_SIZE
    · have hcond : 0 < D - (⌊D / cfg.GRID_SIZE⌋ : ℚ) * cfg.GRID_SIZE ∧
          D - (⌊D / cfg.GRID_SIZE⌋ : ℚ) * cfg.GRID_SIZE < cfg.GRID_SIZE := ⟨hrd, hremlt⟩
      simp only [if_pos hcond]
      have hc : (⌈D / cfg.GRID_SIZE⌉ : ℤ) = ⌊D / cfg.GRID_SIZE⌋ + 1 := hceil1 hrd
      by_cases hsy0 : ⌊D / cfg.GRID_SIZE⌋ = 0
      · have hlast : (num_squares_y cfg D).toNat - 1 = 0 := by omega
        have hfloorQ : (⌊D / cfg.GRID_SIZE⌋ : ℚ) = 0 := by
          exact_mod_cast congrArg (fun z : ℤ => (z : ℚ)) hsy0
        simp only [hlast, if_pos rfl, if_pos hrd, hfloorQ]
        simp [hD]
      · have hlastne : (num_squares_y cfg D).toNat - 1 ≠ 0 := by omega
        simp only [if_neg hlastne]
        have hlast : (((num_squares_y cfg D).toNat - 1 : ℕ) : ℤ) = ⌊D / cfg.GRID_SIZE⌋ := by
          omega
        have hcast : ((((num_squares_y cfg D).toNat - 1 : ℕ)) : ℚ)
            = ((⌊D / cfg.GRID_SIZE⌋ : ℤ) : ℚ) := by
          exact_mod_cast congrArg (fun z : ℤ => (z : ℚ)) hlast
        rw [hcast]
        ring
    · have hrd0 : D - (⌊D / cfg.GRID_SIZE⌋ : ℚ) * cfg.GRID_SIZE = 0 := by linarith
      have hcond : ¬(0 < D - (⌊D / cfg.GRID_SIZE⌋ : ℚ) * cfg.GRID_SIZE ∧
          D - (⌊D / cfg.GRID_SIZE⌋ : ℚ) * cfg.GRID_SIZE < cfg.GRID_SIZE) := by
        intro h
        exact hrd h.1
      simp only [if_neg hcond]
      have hc : (⌈D / cfg.GRID_SIZE⌉ : ℤ) = ⌊D / cfg.GRID_SIZE⌋ := hceil0 hrd0
      have hfloorpos : 0 < ⌊D / cfg.GRID_SIZE⌋ := by omega
      have hisy : ((((num_squares_y cfg D).toNat - 1 : ℕ)) : ℤ) < ⌊D / cfg.GRID_SIZE⌋ := by
        omega
      simp only [if_pos hisy]
      have hlast : (((num_squares_y cfg D).toNat - 1 : ℕ) : ℤ) = ⌊D / cfg.GRID_SIZE⌋ - 1 := by
        omega
      have hcast : ((((num_squares_y cfg D).toNat - 1 : ℕ)) : ℚ)
          = ((⌊D / cfg.GRID_SIZE⌋ : ℤ) : ℚ) - 1 := by
        have := congrArg (fun z : ℤ => (z : ℚ)) hlast
        push_cast at this
        exact_mod_cast this
      rw [hcast]
      have hDeq : D = (⌊D / cfg.GRID_SIZE⌋ : ℚ) * cfg.GRID_SIZE := by linarith
      linear_combination -hDeq

/-- A point lies in the half-open rectangle of a cell. -/
def unit_contains (u : GUnit) (px py : ℚ) : Prop :=
  (u.x_offset ≤ px ∧ px < u.x_offset + u.width) ∧
  (u.y_offset ≤ py ∧ py < u.y_offset + u.depth)

instance unit_contains_dec (u : GUnit) (px py : ℚ) :
    Decidable (unit_contains u px py) := by
  unfold unit_contains
  infer_instance

/-- Claim C3, amended: the cells of `grid_divider` tile the drawer
rectangle `[0,W] x [0,D]` exactly — every cell stays inside the rectangle
and every interior point is covered by exactly one cell — PROVIDED the
loop bounds `num_squares_x/y` (which divide `W - 2*TOLERANCE` rather than
`W`) coincide with the true ceilings `ceil(W/g)` and `ceil(D/g)`.  When an
axis remainder lies in `(0, 2*TOLERANCE]` this hypothesis fails and so
does the tiling (see the counterexample). -/
theorem grid_divider_tiling (cfg : GridfinityConfig) (W D : ℚ)
    (hg : 0 < cfg.GRID_SIZE) (hW : 0 < W) (hD : 0 < D)
    (hNX : num_squares_x cfg W = ⌈W / cfg.GRID_SIZE⌉)
    (hNY : num_squares_y cfg D = ⌈D / cfg.GRID_SIZE⌉) :
    (∀ u ∈ grid_divider cfg W D,
        0 ≤ u.x_offset ∧ u.x_offset + u.width ≤ W ∧
        0 ≤ u.y_offset ∧ u.y_offset + u.depth ≤ D) ∧
    (∀ px py : ℚ, 0 ≤ px → px < W → 0 ≤ py → py < D →
        (grid_divider cfg W D).countP
          (fun u => decide (unit_contains u px py)) = 1) := by
  obtain ⟨hnx, hx0, hxab, hxpos, hxend⟩ := col_axis_package cfg W hg hW hNX
  obtain ⟨hny, hy0, hyab, hypos, hyend⟩ := row_axis_package cfg D hg hD hNY
  constructor
  · intro u hu
    simp only [grid_divider, List.mem_flatten, List.mem_map, List.mem_range] at hu
    obtain ⟨l, ⟨y, hy, rfl⟩, hul⟩ := hu
    obtain ⟨x, hx, rfl⟩ := List.mem_map.mp hul
    rw [List.mem_range] at hx
    have hxB := abut_bounds (num_squares_x cfg W).toNat (col_lo cfg) (col_w cfg W)
      W hnx hx0 hxab hxpos hxend x hx
    have hyB := abut_bounds (num_squares_y cfg D).toNat (row_lo cfg D) (row_w cfg D)
      D hny hy0 hyab hypos hyend y hy
    rw [grid_cell_eq]
    exact ⟨hxB.1, hxB.2, hyB.1, hyB.2⟩
  · intro px py hpx0 hpxW hpy0 hpyD
    have hxcount : (List.range (num_squares_x cfg W).toNat).countP
        (fun x => decide (col_lo cfg x ≤ px ∧ px < col_lo cfg x + col_w cfg W x)) = 1 := by
      apply countP_range_one
      obtain ⟨i, hi, hint, huniq⟩ := abut_cover_unique (num_squares_x cfg W).toNat
        (col_lo cfg) (col_w cfg W) W px hnx hx0 hxab hxpos hxend hpx0 hpxW
      refine ⟨i, hi, by simpa using hint, ?_⟩
      intro j hj hpj
      have hpj' : col_lo cfg j ≤ px ∧ px < col_lo cfg j + col_w cfg W j := by
        simpa using hpj
      exact huniq j hj hpj'.1 hpj'.2
    have hycount : (List.range (num_squares_y cfg D).toNat).countP
        (fun y => decide (row_lo cfg D y ≤ py ∧ py < row_lo cfg D y + row_w cfg D y)) = 1 := by
      apply countP_range_one
      obtain ⟨i, hi, hint, huniq⟩ := abut_cover_unique (num_squares_y cfg D).toNat
        (row_lo cfg D) (row_w cfg D) D py hny hy0 hyab hypos hyend hpy0 hpyD
      refine ⟨i, hi, by simpa using hint, ?_⟩
      intro j hj hpj
      have hpj' : row_lo cfg D j ≤ py ∧ py < row_lo cfg D j + row_w cfg D j := by
        simpa using hpj
      exact huniq j hj hpj'.1 hpj'.2
    unfold grid_divider
    rw [List.countP_flatten, List.map_map]
    have hfun : (List.countP (fun u => decide (unit_contains u px py)) ∘ fun y : ℕ =>
        (List.range (num_squares_x cfg W).toNat).map (grid_cell cfg W D y))
        = fun y : ℕ =>
            if row_lo cfg D y ≤ py ∧ py < row_lo cfg D y + row_w cfg D y then 1 else 0 := by
      funext y
      show ((List.range (num_squares_x cfg W).toNat).map
          (grid_cell cfg W D y)).countP (fun u => decide (unit_contains u px py)) = _
      rw [List.countP_map]
      by_cases hY : row_lo cfg D y ≤ py ∧ py < row_lo cfg D y + row_w cfg D y
      · rw [if_pos hY, ← hxcount]
        apply List.countP_congr
        intro x hx
        simp only [Function.comp_apply, decide_eq_true_eq, grid_cell_eq, unit_contains]
        constructor
        · intro h
          exact h.1
        · intro h
          exact ⟨h, hY⟩
      · rw [if_neg hY, List.countP_eq_zero]
        intro x hx hcontra
        simp only [Function.comp_apply, decide_eq_true_eq, grid_cell_eq,
          unit_contains] at hcontra
        exact hY hcontra.2
    rw [hfun, sum_map_ite_countP]
    exact hycount

/-- Claim C3 as stated fails on the code: for a 43x42 drawer (default
config) the point (42.5, 21) lies inside `[0,43) x [0,42)` but in no cell
of `grid_divider` — the single produced cell covers only `[0,42]x[0,42]`,
leaving a gap. -/
theorem grid_divider_tiling_counterexample :
    (0 : ℚ) ≤ 42.5 ∧ (42.5 : ℚ) < 43 ∧ (0 : ℚ) ≤ 21 ∧ (21 : ℚ) < 42 ∧
    (grid_divider defaultConfig 43 42).countP
      (fun u => decide (unit_contains u (42.5 : ℚ) 21)) = 0 := by
  refine ⟨by norm_num, by norm_num, by norm_num, by norm_num, ?_⟩
  rw [List.countP_eq_zero]
  intro u hu
  simp only [grid_divider, List.mem_flatten, List.mem_map, List.mem_range] at hu
  obtain ⟨l, ⟨y, hy, rfl⟩, hul⟩ := hu
  obtain ⟨x, hx, rfl⟩ := List.mem_map.mp hul
  rw [List.mem_range] at hx
  have hx1 : num_squares_x defaultConfig 43 = 1 := by
    show (⌈((43 : ℚ) - 2 * 0.5) / 42⌉ : ℤ) = 1
    norm_num
  rw [hx1] at hx
  have hx0 : x = 0 := by
    have h1 : (1 : ℤ).toNat = 1 := rfl
    rw [h1] at hx
    omega
  subst hx0
  simp only [decide_eq_true_eq]
  intro hcontra
  rw [grid_cell_eq] at hcontra
  obtain ⟨⟨_, hx2⟩, _⟩ := hcontra
  dsimp only at hx2
  have hlo : col_lo defaultConfig 0 = 0 := by simp [col_lo]
  have hw : col_w defaultConfig 43 0 = 42 := by
    have hpy : pyInt ((43 : ℚ) / defaultConfig.GRID_SIZE) = 1 := by
      show pyInt ((43 : ℚ) / 42) = 1
      rw [pyInt_eq_floor _ (by norm_num)]
      norm_num [Int.floor_eq_iff]
    unfold col_w
    rw [hpy]
    norm_num [defaultConfig]
  rw [hlo, hw] at hx2
  norm_num at hx2

/-- Witness for the amended claim C3 at the 50x50 drawer with the default
42mm grid: the hypotheses hold and the four cells tile `[0,50] x [0,50]`. -/
theorem grid_divider_tiling_witness :
    ((0 : ℚ) < defaultConfig.GRID_SIZE ∧ (0 : ℚ) < 50 ∧
      num_squares_x defaultConfig 50 = ⌈(50 : ℚ) / defaultConfig.GRID_SIZE⌉ ∧
      num_squares_y defaultConfig 50 = ⌈(50 : ℚ) / defaultConfig.GRID_SIZE⌉) ∧
    ((∀ u ∈ grid_divider defaultConfig 50 50,
        0 ≤ u.x_offset ∧ u.x_offset + u.width ≤ 50 ∧
        0 ≤ u.y_offset ∧ u.y_offset + u.depth ≤ 50) ∧
     (∀ px py : ℚ, 0 ≤ px → px < 50 → 0 ≤ py → py < 50 →
        (grid_divider defaultConfig 50 50).countP
          (fun u => decide (unit_contains u px py)) = 1)) := by
  have hg : (0 : ℚ) < defaultConfig.GRID_SIZE := by norm_num [defaultConfig]
  have h50 : (0 : ℚ) < 50 := by norm_num
  have hca : (⌈((50 : ℚ) - 2 * 0.5) / 42⌉ : ℤ) = 2 := by
    norm_num [Int.ceil_eq_iff]
  have hcb : (⌈(50 : ℚ) / 42⌉ : ℤ) = 2 := by
    norm_num [Int.ceil_eq_iff]
  have hnx : num_squares_x defaultConfig 50 = ⌈(50 : ℚ) / defaultConfig.GRID_SIZE⌉ := by
    show (⌈((50 : ℚ) - 2 * 0.5) / 42⌉ : ℤ) = ⌈(50 : ℚ) / 42⌉
    rw [hca, hcb]
  have hny : num_squares_y defaultConfig 50 = ⌈(50 : ℚ) / defaultConfig.GRID_SIZE⌉ := by
    show (⌈((50 : ℚ) - 2 * 0.5) / 42⌉ : ℤ) = ⌈(50 : ℚ) / 42⌉
    rw [hca, hcb]
  exact ⟨⟨hg, h50, hnx, hny⟩,
    grid_divider_tiling defaultConfig 50 50 hg h50 h50 hnx hny⟩

/-- Membership characterization for `grid_divider` output. -/
theorem mem_grid_divider (cfg : GridfinityConfig) (W D : ℚ) (u : GUnit) :
    u ∈ grid_divider cfg W D ↔
    ∃ y, y < (num_squares_y cfg D).toNat ∧
      ∃ x, x < (num_squares_x cfg W).toNat ∧ grid_cell cfg W D y x = u := by
  simp only [grid_divider, List.mem_flatten, List.mem_map, List.mem_range]
  constructor
  · rintro ⟨l, ⟨y, hy, rfl⟩, hul⟩
    obtain ⟨x, hx, rfl⟩ := List.mem_map.mp hul
    exact ⟨y, hy, x, List.mem_range.mp hx, rfl⟩
  · rintro ⟨y, hy, x, hx, rfl⟩
    exact ⟨_, ⟨y, hy, rfl⟩, List.mem_map_of_mem _ (List.mem_range.mpr hx)⟩

/-- Row offset and depth evaluation in the leftover-depth-row case. -/
theorem row_eval_leftover (cfg : GridfinityConfig) (D : ℚ)
    (hg : 0 < cfg.GRID_SIZE) (hD : 0 < D)
    (hrd_pos : 0 < D - ⌊D / cfg.GRID_SIZE⌋ * cfg.GRID_SIZE)
    (hrd_lt : D - ⌊D / cfg.GRID_SIZE⌋ * cfg.GRID_SIZE < cfg.GRID_SIZE) :
    row_w cfg D 0 = D - ⌊D / cfg.GRID_SIZE⌋ * cfg.GRID_SIZE ∧
    (∀ y : ℕ, y ≠ 0 →
      row_lo cfg D y = D - ⌊D / cfg.GRID_SIZE⌋ * cfg.GRID_SIZE
        + ((y : ℚ) - 1) * cfg.GRID_SIZE ∧
      row_w cfg D y = cfg.GRID_SIZE) := by
  have hpy : pyInt (D / cfg.GRID_SIZE) = ⌊D / cfg.GRID_SIZE⌋ :=
    pyInt_eq_floor _ (le_of_lt (div_pos hD hg))
  have hcond : 0 < D - (⌊D / cfg.GRID_SIZE⌋ : ℚ) * cfg.GRID_SIZE ∧
      D - (⌊D / cfg.GRID_SIZE⌋ : ℚ) * cfg.GRID_SIZE < cfg.GRID_SIZE :=
    ⟨hrd_pos, hrd_lt⟩
  refine ⟨?_, ?_⟩
  · simp only [row_w, hpy, if_pos hcond]
    simp [hrd_pos]
  · intro y hy0
    constructor
    · simp only [row_lo, hpy, if_pos hcond, if_neg hy0]
    · simp only [row_w, hpy, if_pos hcond, if_neg hy0]

/-- Claim C4: when the depth remainder `r_y = D - floor(D/g)*g` satisfies
`0 < r_y < g`, `grid_divider` places a leftover depth-row at y_offset 0
(with depth `r_y`, and 0 is the smallest y_offset), shifts every other
row down by `r_y` (row `k` sits at `k*g + r_y` with depth `g`), keeps all
columns at their unshifted positions `x*g`, and places the leftover-width
column, when present, at the largest x_offset (trailing edge). -/
theorem grid_divider_leftover_row_first (cfg : GridfinityConfig) (W D : ℚ)
    (hg : 0 < cfg.GRID_SIZE) (ht : 0 ≤ cfg.TOLERANCE)
    (hW2t : 2 * cfg.TOLERANCE < W) (hD2t : 2 * cfg.TOLERANCE < D)
    (hW : 0 < W) (hD : 0 < D)
    (hrd_pos : 0 < D - ⌊D / cfg.GRID_SIZE⌋ * cfg.GRID_SIZE)
    (hrd_lt : D - ⌊D / cfg.GRID_SIZE⌋ * cfg.GRID_SIZE < cfg.GRID_SIZE) :
    (∃ u ∈ grid_divider cfg W D, u.y_offset = 0 ∧
        u.depth = D - ⌊D / cfg.GRID_SIZE⌋ * cfg.GRID_SIZE) ∧
    (∀ u ∈ grid_divider cfg W D,
      0 ≤ u.y_offset ∧
      (∃ x : ℕ, x < (num_squares_x cfg W).toNat ∧
        u.x_offset = (x : ℚ) * cfg.GRID_SIZE) ∧
      (u.y_offset = 0 →
        u.depth = D - ⌊D / cfg.GRID_SIZE⌋ * cfg.GRID_SIZE) ∧
      (u.y_offset ≠ 0 → ∃ k : ℕ,
        u.y_offset = (k : ℚ) * cfg.GRID_SIZE
          + (D - ⌊D / cfg.GRID_SIZE⌋ * cfg.GRID_SIZE) ∧
        u.depth = cfg.GRID_SIZE)) ∧
    (∀ u ∈ grid_divider cfg W D, u.width ≠ cfg.GRID_SIZE →
      ∀ v ∈ grid_divider cfg W D, v.x_offset ≤ u.x_offset) := by
  have hpyW : pyInt (W / cfg.GRID_SIZE) = ⌊W / cfg.GRID_SIZE⌋ :=
    pyInt_eq_floor _ (le_of_lt (div_pos hW hg))
  obtain ⟨hw0, hwshift⟩ := row_eval_leftover cfg D hg hD hrd_pos hrd_lt
  have hnxpos : 0 < (num_squares_x cfg W).toNat := by
    have h1 : 0 < ⌈(W - 2 * cfg.TOLERANCE) / cfg.GRID_SIZE⌉ :=
      Int.ceil_pos.mpr (div_pos (by linarith) hg)
    have h2 : num_squares_x cfg W = ⌈(W - 2 * cfg.TOLERANCE) / cfg.GRID_SIZE⌉ := rfl
    omega
  have hnypos : 0 < (num_squares_y cfg D).toNat := by
    have h1 : 0 < ⌈(D - 2 * cfg.TOLERANCE) / cfg.GRID_SIZE⌉ :=
      Int.ceil_pos.mpr (div_pos (by linarith) hg)
    have h2 : num_squares_y cfg D = ⌈(D - 2 * cfg.TOLERANCE) / cfg.GRID_SIZE⌉ := rfl
    omega
  have hnx_le : (num_squares_x cfg W : ℤ) ≤ ⌊W / cfg.GRID_SIZE⌋ + 1 := by
    have h1 : (W - 2 * cfg.TOLERANCE) / cfg.GRID_SIZE ≤ W / cfg.GRID_SIZE :=
      (div_le_div_iff_of_pos_right hg).mpr (by linarith)
    calc (num_squares_x cfg W : ℤ)
        = ⌈(W - 2 * cfg.TOLERANCE) / cfg.GRID_SIZE⌉ := rfl
      _ ≤ ⌈W / cfg.GRID_SIZE⌉ := Int.ceil_le_ceil h1
      _ ≤ ⌊W / cfg.GRID_SIZE⌋ + 1 := Int.ceil_le_floor_add_one _
  refine ⟨?_, ?_, ?_⟩
  · refine ⟨grid_cell cfg W D 0 0, ?_, ?_, ?_⟩
    · rw [mem_grid_divider]
      exact ⟨0, hnypos, 0, hnxpos, rfl⟩
    · rw [grid_cell_eq]
      simp [row_lo]
    · rw [grid_cell_eq]
      exact hw0
  · intro u hu
    rw [mem_grid_divider] at hu
    obtain ⟨y, hy, x, hx, rfl⟩ := hu
    rw [grid_cell_eq]
    by_cases hy0 : y = 0
    · subst hy0
      refine ⟨?_, ⟨x, hx, rfl⟩, ?_, ?_⟩
      · simp [row_lo]
      · intro _
        exact hw0
      · intro hcontra
        exact absurd (by simp [row_lo]) hcontra
    · obtain ⟨hlo, hwd⟩ := hwshift y hy0
      have hy1 : (1 : ℚ) ≤ (y : ℚ) := by
        have : 1 ≤ y := Nat.one_le_iff_ne_zero.mpr hy0
        exact_mod_cast this
      have hlopos : 0 < row_lo cfg D y := by
        rw [hlo]
        have : 0 ≤ ((y : ℚ) - 1) * cfg.GRID_SIZE :=
          mul_nonneg (by linarith) (le_of_lt hg)
        linarith
      refine ⟨le_of_lt hlopos, ⟨x, hx, rfl⟩, ?_, ?_⟩
      · intro hcontra
        exact absurd hcontra (ne_of_gt hlopos)
      · intro _
        refine ⟨y - 1, ?_, hwd⟩
        rw [hlo]
        have hycast : ((y - 1 : ℕ) : ℚ) = (y : ℚ) - 1 := by
          have : 1 ≤ y := Nat.one_le_iff_ne_zero.mpr hy0
          push_cast [this]
          ring
        rw [hycast]
        ring
  · intro u hu hune v hv
    rw [mem_grid_divider] at hu hv
    obtain ⟨yu, hyu, xu, hxu, rfl⟩ := hu
    obtain ⟨yv, hyv, xv, hxv, rfl⟩ := hv
    rw [grid_cell_eq] at hune ⊢
    dsimp only at hune ⊢
    have hxu_ge : ¬((xu : ℤ) < ⌊W / cfg.GRID_SIZE⌋) := by
      intro hlt
      apply hune
      unfold col_w
      rw [hpyW, if_pos hlt]
    have hxu_eq : (xu : ℤ) = ⌊W / cfg.GRID_SIZE⌋ := by
      have : (xu : ℤ) < num_squares_x cfg W := by
        have := hxu
        omega
      omega
    have hxv_le : (xv : ℤ) ≤ ⌊W / cfg.GRID_SIZE⌋ := by
      have : (xv : ℤ) < num_squares_x cfg W := by
        have := hxv
        omega
      omega
    unfold col_lo
    have hcast : (xv : ℚ) ≤ (xu : ℚ) := by
      have : (xv : ℤ) ≤ (xu : ℤ) := by omega
      exact_mod_cast this
    exact mul_le_mul_of_nonneg_right hcast (le_of_lt hg)

/-- Witness for claim C4 at the 50x50 drawer (default config): the depth
remainder is 8, so the hypotheses hold and the conclusion follows. -/
theorem grid_divider_leftover_row_first_witness :
    ((0 : ℚ) < defaultConfig.GRID_SIZE ∧ (0 : ℚ) ≤ defaultConfig.TOLERANCE ∧
      2 * defaultConfig.TOLERANCE < (50 : ℚ) ∧ (0 : ℚ) < 50 ∧
      0 < (50 : ℚ) - ⌊(50 : ℚ) / defaultConfig.GRID_SIZE⌋ * defaultConfig.GRID_SIZE ∧
      (50 : ℚ) - ⌊(50 : ℚ) / defaultConfig.GRID_SIZE⌋ * defaultConfig.GRID_SIZE
        < defaultConfig.GRID_SIZE) ∧
    ((∃ u ∈ grid_divider defaultConfig 50 50, u.y_offset = 0 ∧
        u.depth = (50 : ℚ) - ⌊(50 : ℚ) / defaultConfig.GRID_SIZE⌋ * defaultConfig.GRID_SIZE) ∧
     (∀ u ∈ grid_divider defaultConfig 50 50,
        0 ≤ u.y_offset ∧
        (∃ x : ℕ, x < (num_squares_x defaultConfig 50).toNat ∧
          u.x_offset = (x : ℚ) * defaultConfig.GRID_SIZE) ∧
        (u.y_offset = 0 →
          u.depth = (50 : ℚ) - ⌊(50 : ℚ) / defaultConfig.GRID_SIZE⌋ * defaultConfig.GRID_SIZE) ∧
        (u.y_offset ≠ 0 → ∃ k : ℕ,
          u.y_offset = (k : ℚ) * defaultConfig.GRID_SIZE
            + ((50 : ℚ) - ⌊(50 : ℚ) / defaultConfig.GRID_SIZE⌋ * defaultConfig.GRID_SIZE) ∧
          u.depth = defaultConfig.GRID_SIZE)) ∧
     (∀ u ∈ grid_divider defaultConfig 50 50, u.width ≠ defaultConfig.GRID_SIZE →
        ∀ v ∈ grid_divider defaultConfig 50 50, v.x_offset ≤ u.x_offset)) := by
  have hfl : (⌊(50 : ℚ) / defaultConfig.GRID_SIZE⌋ : ℤ) = 1 := by
    show (⌊(50 : ℚ) / 42⌋ : ℤ) = 1
    norm_num [Int.floor_eq_iff]
  have hg : (0 : ℚ) < defaultConfig.GRID_SIZE := by norm_num [defaultConfig]
  have ht : (0 : ℚ) ≤ defaultConfig.TOLERANCE := by norm_num [defaultConfig]
  have h2t : 2 * defaultConfig.TOLERANCE < (50 : ℚ) := by norm_num [defaultConfig]
  have h50 : (0 : ℚ) < 50 := by norm_num
  have hrd_pos : 0 < (50 : ℚ)
      - ⌊(50 : ℚ) / defaultConfig.GRID_SIZE⌋ * defaultConfig.GRID_SIZE := by
    rw [hfl]
    norm_num [defaultConfig]
  have hrd_lt : (50 : ℚ)
      - ⌊(50 : ℚ) / defaultConfig.GRID_SIZE⌋ * defaultConfig.GRID_SIZE
      < defaultConfig.GRID_SIZE := by
    rw [hfl]
    norm_num [defaultConfig]
  exact ⟨⟨hg, ht, h2t, h50, hrd_pos, hrd_lt⟩,
    grid_divider_leftover_row_first defaultConfig 50 50 hg ht h2t h2t h50 h50
      hrd_pos hrd_lt⟩

/-- `PrintableObject` of gridfinity_baseplate.py. -/
structure PrintableObject where
  units : List GUnit
  index : ℕ
deriving DecidableEq, Repr

/-- Python `min` over a list of rationals (0 on the empty list; the
source only applies it to nonempty lists). -/
def listMin (l : List ℚ) : ℚ :=
  match l with
  | [] => 0
  | a :: t => t.foldl min a

/-- The `for y in range(num_squares_y)` scan of
`printable_object_selector`: starting at row index `y` with `iters`
iterations left, counts the maximal run of rows present in `remaining`
at `y_off + y*GRID_SIZE` whose cumulative extent fits the print bed
depth, collecting their units in order (`current_y_units`). -/
def collect_y_rows (cfg : GridfinityConfig) (remaining : List GUnit)
    (y_off : ℚ) : ℕ → ℕ → ℕ × List GUnit
  | _, 0 => (0, [])
  | y, iters + 1 =>
    let y_row := remaining.filter
      (fun u => decide (u.y_offset = y_off + (y : ℚ) * cfg.GRID_SIZE))
    if y_row = [] ∨ cfg.PRINT_BED_DEPTH < ((y : ℚ) + 1) * cfg.GRID_SIZE then
      (0, [])
    else
      let r := collect_y_rows cfg remaining y_off (y + 1) iters
      (r.1 + 1, y_row ++ r.2)

/-- The `for x in range(num_squares_x)` scan of
`printable_object_selector`: collects, column by column, the units of
`current` found at `(x_off + x*g, y_off + y*g)` for `y < y_count`
(`printable_section_units`), stopping at a missing column or when the
cumulative extent exceeds the print bed width. -/
def collect_x_cols (cfg : GridfinityConfig) (current : List GUnit)
    (y_count : ℕ) (x_off y_off : ℚ) : ℕ → ℕ → ℕ × List GUnit
  | _, 0 => (0, [])
  | x, iters + 1 =>
    let x_col := (List.range y_count).filterMap (fun y =>
      current.find? (fun u =>
        decide (u.x_offset = x_off + (x : ℚ) * cfg.GRID_SIZE ∧
          u.y_offset = y_off + (y : ℚ) * cfg.GRID_SIZE)))
    if x_col = [] ∨ cfg.PRINT_BED_WIDTH < ((x : ℚ) + 1) * cfg.GRID_SIZE then
      (0, [])
    else
      let r := collect_x_cols cfg current y_count x_off y_off (x + 1) iters
      (r.1 + 1, x_col ++ r.2)

/-- The inner `while current_y_units` loop of
`printable_object_selector`, fuel-indexed: builds one printable object
per consumed column band, re-bases its units to the band minimum, and
removes the consumed units from both `remaining` and `current`. -/
def selector_inner (cfg : GridfinityConfig) (numX y_count : ℕ) (y_off : ℚ) :
    ℕ → List GUnit → List GUnit → List PrintableObject → ℕ → ℚ →
    List GUnit × List PrintableObject × ℕ
  | 0, remaining, _, objs, idx, _ => (remaining, objs, idx)
  | fuel + 1, remaining, current, objs, idx, x_off =>
    if current = [] then (remaining, objs, idx)
    else
      let x_units := current.filter (fun u => decide (u.x_offset = x_off))
      if x_units = [] then (remaining, objs, idx)
      else
        let r := collect_x_cols cfg current y_count x_off y_off 0 numX
        if r.2 = [] then (remaining, objs, idx)
        else
          let base_x := listMin (r.2.map (fun u => u.x_offset))
          let base_y := listMin (r.2.map (fun u => u.y_offset))
          let adjusted := r.2.map (fun u =>
            { width := u.width, depth := u.depth,
              x_offset := u.x_offset - base_x,
              y_offset := u.y_offset - base_y,
              is_standard := u.is_standard })
          selector_inner cfg numX y_count y_off fuel
            (r.2.foldl (fun acc u => acc.erase u) remaining)
            (r.2.foldl (fun acc u => acc.erase u) current)
            (objs ++ [⟨adjusted, idx⟩]) (idx + 1)
            (x_off + (r.1 : ℚ) * cfg.GRID_SIZE)

/-- The outer `while remaining_units` loop of
`printable_object_selector`, fuel-indexed. -/
def selector_outer (cfg : GridfinityConfig) (numX numY : ℕ) :
    ℕ → List GUnit → List PrintableObject → ℕ → ℚ → List PrintableObject
  | 0, _, objs, _, _ => objs
  | fuel + 1, remaining, objs, idx, y_off =>
    if remaining = [] then objs
    else
      let y_units := remaining.filter (fun u => decide (u.y_offset = y_off))
      if y_units = [] then objs
      else
        let r := collect_y_rows cfg remaining y_off 0 numY
        let s := selector_inner cfg numX r.1 y_off (r.2.length + 1)
          remaining r.2 objs idx 0
        selector_outer cfg numX numY fuel s.1 s.2.1 s.2.2
          (y_off + (r.1 : ℚ) * cfg.GRID_SIZE)

/-- `GridfinityBaseplate.printable_object_selector`: the two nested
`while` loops over `remaining_units`, with `numX`/`numY` the instance's
`num_squares_x`/`num_squares_y`.  The fuel bounds the number of `while`
iterations; it is generous for the inputs considered here (the source
loop can otherwise fail to make progress only by breaking out). -/
def printable_object_selector (cfg : GridfinityConfig) (numX numY : ℕ)
    (units : List GUnit) : List PrintableObject :=
  selector_outer cfg numX numY (units.length + 1) units [] 0 0

/-- Partition then pack, as `generate_baseplate` composes them. -/
def baseplate_pack (cfg : GridfinityConfig) (W D : ℚ) : List PrintableObject :=
  printable_object_selector cfg (num_squares_x cfg W).toNat
    (num_squares_y cfg D).toNat (grid_divider cfg W D)

theorem dc_grid : defaultConfig.GRID_SIZE = 42 := rfl

theorem dc_bedw : defaultConfig.PRINT_BED_WIDTH = 220 := rfl

theorem dc_bedd : defaultConfig.PRINT_BED_DEPTH = 220 := rfl

theorem pyInt_50_42 : pyInt ((50 : ℚ) / defaultConfig.GRID_SIZE) = 1 := by
  show pyInt ((50 : ℚ) / 42) = 1
  rw [pyInt_eq_floor _ (by norm_num)]
  norm_num [Int.floor_eq_iff]

theorem nsx50 : (num_squares_x defaultConfig 50).toNat = 2 := by
  have h : num_squares_x defaultConfig 50 = 2 := by
    show (⌈((50 : ℚ) - 2 * 0.5) / 42⌉ : ℤ) = 2
    norm_num [Int.ceil_eq_iff]
  rw [h]
  rfl

theorem nsy50 : (num_squares_y defaultConfig 50).toNat = 2 := nsx50

/-- The four cells of a 50x50 drawer under the default config: the
leftover depth-row (depth 8) first at y=0, the standard row shifted to
y=8, the leftover column (width 8) trailing at x=42. -/
theorem grid_divider_50 :
    grid_divider defaultConfig 50 50 =
      [⟨42, 8, 0, 0, false⟩, ⟨8, 8, 42, 0, false⟩,
       ⟨42, 42, 0, 8, true⟩, ⟨8, 42, 42, 8, false⟩] := by
  unfold grid_divider
  rw [nsx50, nsy50]
  show ([[grid_cell defaultConfig 50 50 0 0, grid_cell defaultConfig 50 50 0 1],
    [grid_cell defaultConfig 50 50 1 0, grid_cell defaultConfig 50 50 1 1]]).flatten = _
  have c00 : grid_cell defaultConfig 50 50 0 0 = ⟨42, 8, 0, 0, false⟩ := by
    rw [grid_cell_eq]
    simp only [GUnit.mk.injEq]
    unfold col_w row_w col_lo row_lo
    rw [pyInt_50_42]
    norm_num [defaultConfig]
  have c01 : grid_cell defaultConfig 50 50 0 1 = ⟨8, 8, 42, 0, false⟩ := by
    rw [grid_cell_eq]
    simp only [GUnit.mk.injEq]
    unfold col_w row_w col_lo row_lo
    rw [pyInt_50_42]
    norm_num [defaultConfig]
  have c10 : grid_cell defaultConfig 50 50 1 0 = ⟨42, 42, 0, 8, true⟩ := by
    rw [grid_cell_eq]
    simp only [GUnit.mk.injEq]
    unfold col_w row_w col_lo row_lo
    rw [pyInt_50_42]
    norm_num [defaultConfig]
  have c11 : grid_cell defaultConfig 50 50 1 1 = ⟨8, 42, 42, 8, false⟩ := by
    rw [grid_cell_eq]
    simp only [GUnit.mk.injEq]
    unfold col_w row_w col_lo row_lo
    rw [pyInt_50_42]
    norm_num [defaultConfig]
  rw [c00, c01, c10, c11]
  rfl

theorem collect_y_rows_50 : collect_y_rows defaultConfig
    [⟨42, 8, 0, 0, false⟩, ⟨8, 8, 42, 0, false⟩,
     ⟨42, 42, 0, 8, true⟩, ⟨8, 42, 42, 8, false⟩] 0 0 2
    = (1, [⟨42, 8, 0, 0, false⟩, ⟨8, 8, 42, 0, false⟩]) := by
  norm_num [collect_y_rows, dc_grid, dc_bedd, List.filter, List.cons_ne_nil]

theorem collect_x_cols_50 : collect_x_cols defaultConfig
    [⟨42, 8, 0, 0, false⟩, ⟨8, 8, 42, 0, false⟩] 1 0 0 0 2
    = (2, [⟨42, 8, 0, 0, false⟩, ⟨8, 8, 42, 0, false⟩]) := by
  norm_num [collect_x_cols, dc_grid, dc_bedw, List.find?, List.range_succ,
    List.filterMap_cons, List.cons_ne_nil]

theorem selector_inner_50 : selector_inner defaultConfig 2 1 0 3
    [⟨42, 8, 0, 0, false⟩, ⟨8, 8, 42, 0, false⟩,
     ⟨42, 42, 0, 8, true⟩, ⟨8, 42, 42, 8, false⟩]
    [⟨42, 8, 0, 0, false⟩, ⟨8, 8, 42, 0, false⟩] [] 0 0
    = ([⟨42, 42, 0, 8, true⟩, ⟨8, 42, 42, 8, false⟩],
       [⟨[⟨42, 8, 0, 0, false⟩, ⟨8, 8, 42, 0, false⟩], 0⟩], 1) := by
  norm_num [selector_inner, collect_x_cols_50, listMin, List.filter,
    List.erase_cons, beq_iff_eq, GUnit.mk.injEq, List.cons_ne_nil, dc_grid]

/-- Claim C1 fails on the code, and the spec is the clear intent: for the
50x50 drawer under the default config, `grid_divider` yields 4 cells but
`printable_object_selector` packs only the two cells of the leftover
depth-row at y=0 into a single cluster and silently drops the two shifted
rows (sitting at y=8, which the selector never visits because it scans
only multiples of GRID_SIZE). -/
theorem printable_object_selector_drops_cells :
    (grid_divider defaultConfig 50 50).length = 4 ∧
    baseplate_pack defaultConfig 50 50 =
      [⟨[⟨42, 8, 0, 0, false⟩, ⟨8, 8, 42, 0, false⟩], 0⟩] ∧
    ((baseplate_pack defaultConfig 50 50).map (fun o => o.units.length)).sum
      = 2 := by
  have hpack : baseplate_pack defaultConfig 50 50 =
      [⟨[⟨42, 8, 0, 0, false⟩, ⟨8, 8, 42, 0, false⟩], 0⟩] := by
    rw [baseplate_pack, grid_divider_50, nsx50, nsy50, printable_object_selector]
    norm_num [selector_outer, collect_y_rows_50, selector_inner_50,
      List.filter, List.cons_ne_nil, dc_grid]
  refine ⟨?_, hpack, ?_⟩
  · rw [grid_divider_50]
    rfl
  · rw [hpack]
    rfl

/-- The error kinds produced by `GridfinityConfig.validate_dimensions`,
one constructor per f-string message, each naming its dimension and the
violated bound. -/
inductive DimError where
  | widthMin (width minw : ℚ)
  | depthMin (depth mind : ℚ)
  | heightMin (height minh : ℚ)
  | widthMax (width bedw : ℚ)
  | depthMax (depth bedd : ℚ)
deriving DecidableEq, Repr

/-- `GridfinityConfig.validate_dimensions`: collects every violated bound
into one list.  `height` is an optional argument defaulting to `None`;
the minimum-height check is guarded by Python truthiness (`if height and
height < cls.MIN_HEIGHT`), so both `None` and `0` skip it. -/
def validate_dimensions (cfg : GridfinityConfig) (width depth : ℚ)
    (height : Option ℚ) : List DimError :=
  (if width < cfg.MIN_WIDTH then [DimError.widthMin width cfg.MIN_WIDTH] else [])
  ++ (if depth < cfg.MIN_DEPTH then [DimError.depthMin depth cfg.MIN_DEPTH] else [])
  ++ (match height with
      | some h =>
        if h ≠ 0 ∧ h < cfg.MIN_HEIGHT then [DimError.heightMin h cfg.MIN_HEIGHT]
        else []
      | none => [])
  ++ (if width > cfg.PRINT_BED_WIDTH then [DimError.widthMax width cfg.PRINT_BED_WIDTH] else [])
  ++ (if depth > cfg.PRINT_BED_DEPTH then [DimError.depthMax depth cfg.PRINT_BED_DEPTH] else [])

/-- Claim C10: when the requested height is 0 (or omitted/`None`),
`validate_dimensions` reports no height violation — the check is guarded
by the truthiness of `height` — while width and depth are still checked,
and this is so even though 0 is below the configured 10mm minimum. -/
theorem validate_dimensions_height_zero (cfg : GridfinityConfig) (w d : ℚ) :
    validate_dimensions cfg w d (some 0) = validate_dimensions cfg w d none ∧
    (∀ h minh : ℚ, DimError.heightMin h minh ∉ validate_dimensions cfg w d (some 0)) ∧
    (DimError.widthMin w cfg.MIN_WIDTH ∈ validate_dimensions cfg w d (some 0)
      ↔ w < cfg.MIN_WIDTH) ∧
    (DimError.depthMin d cfg.MIN_DEPTH ∈ validate_dimensions cfg w d (some 0)
      ↔ d < cfg.MIN_DEPTH) ∧
    (0 : ℚ) < defaultConfig.MIN_HEIGHT := by
  refine ⟨?_, ?_, ?_, ?_, by norm_num [defaultConfig]⟩
  · simp [validate_dimensions]
  · intro h minh
    unfold validate_dimensions
    simp only [List.mem_append, List.mem_singleton]
    intro hcontra
    rcases hcontra with ((((h1 | h2) | h3) | h4) | h5)
    · split_ifs at h1 <;> simp_all
    · split_ifs at h2 <;> simp_all
    · simp_all
    · split_ifs at h4 <;> simp_all
    · split_ifs at h5 <;> simp_all
  · unfold validate_dimensions
    by_cases hw : w < cfg.MIN_WIDTH <;>
      simp_all [List.mem_append]
  · unfold validate_dimensions
    by_cases hd : d < cfg.MIN_DEPTH <;>
      simp_all [List.mem_append]

/-- Python `max` over a list of rationals (0 on the empty list). -/
def listMax (l : List ℚ) : ℚ :=
  match l with
  | [] => 0
  | a :: t => t.foldl max a

/-- The instance attributes set in `GridfinityCustomBin.__init__`
(src/core/gridfinity_custom_bin.py).  Note `lip_height = 1.5` there,
unlike the config dataclass's 4.3. -/
structure GridfinityCustomBin where
  knob_height : ℚ
  wall_thickness : ℚ
  bin_inset : ℚ
  corner_diameter : ℚ
  wall_height : ℚ
  lip_height : ℚ
  bottom_thickness : ℚ
deriving DecidableEq, Repr

/-- The `__init__` values of `GridfinityCustomBin`. -/
def defaultBin : GridfinityCustomBin where
  knob_height := 4.75
  wall_thickness := 1.2
  bin_inset := 0.25
  corner_diameter := 8
  wall_height := 5
  lip_height := 1.5
  bottom_thickness := 0.8

/-- `create_wall_base_profile` point list, as (x, y, z) triples. -/
def wall_base_profile_points (b : GridfinityCustomBin) : List (ℚ × ℚ × ℚ) :=
  [(0, 0, 0), (0, b.wall_thickness, 0), (0, b.wall_thickness, b.wall_height),
   (0, 0, b.wall_height), (0, 0, 0)]

/-- `create_lip_base_profile` point list: inner/straight/outer extensions
0.6 / 1.8 / 1.9, total height `1.8 + 0.6 + 1.9 = 4.3`. -/
def lip_base_profile_points : List (ℚ × ℚ × ℚ) :=
  [(0, 0, 0), (0, 0, 1.8 + 0.6 + 1.9),
   (0, 1.9, 1.8 + 0.6 + 1.9 - 1.9),
   (0, 1.9, 1.8 + 0.6 + 1.9 - 1.9 - 1.8),
   (0, 1.9 + 0.6, 0), (0, 0, 0)]

/-- `create_knob_profile` point list. -/
def knob_profile_points : List (ℚ × ℚ × ℚ) :=
  [(0, 0, 4.75), (0, 3.75, 4.75), (0, 3.75, 0), (0, 2.95, 0),
   (0, 2.15, 0.8), (0, 2.15, 2.6), (0, 0, 4.75)]

/-- Vertical extent of a profile: the spread of its z coordinates.  A
profile swept along horizontal paths at `z_offset` occupies exactly
`[z_offset, z_offset + extent]`. -/
def profile_z_extent (pts : List (ℚ × ℚ × ℚ)) : ℚ :=
  listMax (pts.map (fun p => p.2.2)) - listMin (pts.map (fun p => p.2.2))

/-- A placed layer: base z offset and vertical extent of its geometry. -/
structure PlacedLayer where
  z : ℚ
  height : ℚ
deriving DecidableEq, Repr

/-- The local variable `wall_height = height - self.bottom_thickness -
self.lip_height - self.knob_height` computed in `create_bin` — and then
never used by it. -/
def computed_wall_height (b : GridfinityCustomBin) (height : ℚ) : ℚ :=
  height - b.bottom_thickness - b.lip_height - b.knob_height

/-- The Z-placement trace of `GridfinityCustomBin.create_bin`, in build
order (knob, bottom, wall, lip): the knob layer is built at z = 0 (boxes
of height `knob_height`, knob profile spanning `[0, 4.75]`); the bottom
plate is extruded by `bottom_thickness` and raised to `z = knob_height`;
the wall ring is swept at `wall_z_offset = bottom_thickness +
knob_height` and spans the wall profile's fixed extent (`wall_height` =
5) regardless of the requested total height; the lip ring is swept at
`lip_z_offset = wall_z_offset + self.wall_height` — the fixed attribute,
not the computed local `wall_height` — and spans the lip profile's
extent 4.3. -/
def create_bin_layers (b : GridfinityCustomBin) (width depth height : ℚ) :
    PlacedLayer × PlacedLayer × PlacedLayer × PlacedLayer :=
  let knob : PlacedLayer := ⟨0, b.knob_height⟩
  let bottom : PlacedLayer := ⟨b.knob_height, b.bottom_thickness⟩
  let wall_z_offset := b.bottom_thickness + b.knob_height
  let wall : PlacedLayer :=
    ⟨wall_z_offset, profile_z_extent (wall_base_profile_points b)⟩
  let lip_z_offset := wall_z_offset + b.wall_height
  let lip : PlacedLayer := ⟨lip_z_offset, profile_z_extent lip_base_profile_points⟩
  (knob, bottom, wall, lip)

/-- Claim C6 is violated by the code and the spec states the clear
intent: `create_bin` computes the local `wall_height = H -
bottom_thickness - lip_height - knob_height` but never uses it — the
wall ring it sweeps spans the fixed profile height 5.0, and the lip ring
is placed at `wall_z_offset + self.wall_height = 10.55`, independent of
H, instead of at `H - lip_height`.  Evaluated at the source's own
example bin (30 x 42 x 35): computed wall height 27.95 vs actual 5; lip
z-offset 10.55 vs the claimed 33.5. -/
theorem create_bin_layer_offsets_bug :
    (create_bin_layers defaultBin 30 42 35).2.2.1.z
        = defaultBin.bottom_thickness + defaultBin.knob_height ∧
    (create_bin_layers defaultBin 30 42 35).2.2.1.height = 5 ∧
    computed_wall_height defaultBin 35 = 27.95 ∧
    (create_bin_layers defaultBin 30 42 35).2.2.1.height
      ≠ computed_wall_height defaultBin 35 ∧
    (create_bin_layers defaultBin 30 42 35).2.2.2.z = 10.55 ∧
    (35 : ℚ) - defaultBin.lip_height = 33.5 ∧
    (create_bin_layers defaultBin 30 42 35).2.2.2.z
      ≠ (35 : ℚ) - defaultBin.lip_height := by
  refine ⟨?_, ?_, ?_, ?_, ?_, ?_, ?_⟩ <;>
    norm_num [create_bin_layers, computed_wall_height, defaultBin,
      profile_z_extent, wall_base_profile_points, lip_base_profile_points,
      listMin, listMax]

/-- Claim C5 is violated by the code and the spec (and the repository's
own tests, which exercise a twin class) state the clear intent:
`create_bin` in src/core/gridfinity_custom_bin.py performs NO dimension
validation — for a 1x1x1mm request it proceeds to build all four layers,
even though `validate_dimensions` (which this build never calls) reports
all three minimum violations for that request.  `validate_dimensions`
itself does collect all violations into one list and passes a width or
depth of exactly 15mm. -/
theorem create_bin_skips_validation :
    validate_dimensions defaultConfig 1 1 (some 1)
      = [DimError.widthMin 1 15, DimError.depthMin 1 15,
         DimError.heightMin 1 10] ∧
    create_bin_layers defaultBin 1 1 1
      = (⟨0, 4.75⟩, ⟨4.75, 0.8⟩, ⟨5.55, 5⟩, ⟨10.55, 4.3⟩) ∧
    validate_dimensions defaultConfig 15 15 (some 20) = [] := by
  refine ⟨?_, ?_, ?_⟩
  · norm_num [validate_dimensions, defaultConfig]
  · norm_num [create_bin_layers, defaultBin, profile_z_extent,
      wall_base_profile_points, lip_base_profile_points, listMin, listMax,
      Prod.ext_iff, PlacedLayer.mk.injEq]
  · norm_num [validate_dimensions, defaultConfig]

/-- Outcome of one build attempt, for document-lifecycle modelling:
an exception before the document is created, an exception after, or
success. -/
inductive BuildOutcome where
  | preFail
  | bodyFail
  | ok
deriving DecidableEq, Repr

/-- `FreeCAD.closeDocument` on the global name registry. -/
def closeDocument (reg : List String) (n : String) : List String := reg.erase n

/-- `FreeCAD.newDocument` on the global name registry. -/
def newDocument (reg : List String) (n : String) : List String := reg ++ [n]

/-- Document lifecycle of `GridfinityBaseplate.create_printable_object`:
inside `try`, close any pre-existing document of the same name, create
the document, run the body; on success close the document and return; in
`except`, close the document if it exists and re-raise.  Returns whether
the call raised, with the final registry. -/
def create_printable_object_docflow (reg : List String) (doc_name : String)
    (outcome : BuildOutcome) : Except Unit Unit × List String :=
  match outcome with
  | BuildOutcome.preFail => (Except.error (), reg)
  | BuildOutcome.bodyFail =>
    let reg1 := if doc_name ∈ reg then closeDocument reg doc_name else reg
    let reg2 := newDocument reg1 doc_name
    (Except.error (),
      if doc_name ∈ reg2 then closeDocument reg2 doc_name else reg2)
  | BuildOutcome.ok =>
    let reg1 := if doc_name ∈ reg then closeDocument reg doc_name else reg
    let reg2 := newDocument reg1 doc_name
    (Except.ok (), closeDocument reg2 doc_name)

/-- Document lifecycle of `GridfinityCustomBin.create_bin`: the document
is created with `App.newDocument` and never closed — on success it is
returned to the caller still open, and the `except` handler only logs
and re-raises. -/
def create_bin_docflow (reg : List String) (doc_name : String)
    (outcome : BuildOutcome) : Except Unit Unit × List String :=
  match outcome with
  | BuildOutcome.preFail => (Except.error (), reg)
  | BuildOutcome.bodyFail => (Except.error (), newDocument reg doc_name)
  | BuildOutcome.ok => (Except.ok (), newDocument reg doc_name)

/-- Claim C9, amended: the baseplate build (`create_printable_object`)
does close its working document on every exit path — after the call the
document is gone from the registry whatever the outcome — but the bin
build (`create_bin`) never closes its document: whenever the document
was created (every outcome except a pre-creation failure) it remains
open in the registry after the call returns or raises. -/
theorem document_release_behaviour (reg : List String) (doc_name : String)
    (outcome : BuildOutcome) (hfresh : doc_name ∉ reg) :
    doc_name ∉ (create_printable_object_docflow reg doc_name outcome).2 ∧
    (outcome ≠ BuildOutcome.preFail →
      doc_name ∈ (create_bin_docflow reg doc_name outcome).2) := by
  have herase : (newDocument reg doc_name).erase doc_name = reg := by
    unfold newDocument
    rw [List.erase_append_right _ hfresh]
    simp
  cases outcome with
  | preFail =>
    refine ⟨hfresh, ?_⟩
    intro h
    exact absurd rfl h
  | bodyFail =>
    constructor
    · simp only [create_printable_object_docflow, if_neg hfresh]
      rw [if_pos (by simp [newDocument])]
      unfold closeDocument
      rw [herase]
      exact hfresh
    · intro _
      simp [create_bin_docflow, newDocument]
  | ok =>
    constructor
    · simp only [create_printable_object_docflow, if_neg hfresh]
      unfold closeDocument
      rw [herase]
      exact hfresh
    · intro _
      simp [create_bin_docflow, newDocument]

/-- Witness for the amended claim C9 at a concrete fresh registry. -/
theorem document_release_behaviour_witness :
    ("BasePlate_0" ∉ ([] : List String)) ∧
    ("BasePlate_0" ∉
        (create_printable_object_docflow [] "BasePlate_0" BuildOutcome.ok).2 ∧
      (BuildOutcome.ok ≠ BuildOutcome.preFail →
        "BasePlate_0" ∈ (create_bin_docflow [] "BasePlate_0" BuildOutcome.ok).2)) :=
  ⟨by simp, document_release_behaviour [] "BasePlate_0" BuildOutcome.ok (by simp)⟩

/-- Claim C9 as stated is false on the code: a successful `create_bin`
run starting from an empty registry returns with its document still open
(the document handle is returned to the caller and never closed). -/
theorem create_bin_leaks_document :
    (create_bin_docflow [] "GrifinityBin_30x42" BuildOutcome.ok).1
      = Except.ok () ∧
    "GrifinityBin_30x42" ∈
      (create_bin_docflow [] "GrifinityBin_30x42" BuildOutcome.ok).2 := by
  constructor
  · rfl
  · simp [create_bin_docflow, newDocument]

/-- Abstract CAD shape: only the null/valid flags observed by the
baseplate code matter here. -/
structure Shape where
  isNull : Bool
  isValid : Bool
deriving DecidableEq, Repr

/-- `GridfinityBaseplate.validate_shape`: true iff the shape is non-null
and valid (exceptions and both failure branches return False). -/
def validate_shape (s : Shape) : Bool := !s.isNull && s.isValid

/-- `GridfinityBaseplate.safe_fuse`.  `fuseFn` models the kernel fuse
together with its boolean-operation fallback: `none` means both raised.
A null or failed result falls back to the base shape. -/
def safe_fuse (fuseFn : Shape → Shape → Option Shape) (base sh : Shape) :
    Shape :=
  match fuseFn base sh with
  | some f => if f.isNull then base else f
  | none => base

/-- The per-piece loop of `create_straight_sections` / `create_corners`:
each attempt either raised (`none`) or produced a pipe shape, and a
produced shape is appended only if it passes `validate_shape` — any
failure just skips that piece (`continue`). -/
def surviving_pieces (attempts : List (Option Shape)) : List Shape :=
  attempts.filterMap (fun a =>
    match a with
    | none => none
    | some s => if validate_shape s then some s else none)

/-- `GridfinityBaseplate.create_unit` for a cell at `(width, depth)`.
Small cells get the plain block (`blockShapes`; `create_block` returns
`[]` when the kernel raises).  Otherwise the surviving straight and
corner pieces are combined: `compoundFn` models `Part.Compound` (`none`
= exception); a non-null compound becomes the final shape, else the
pieces are fused sequentially starting from `all_shapes[0]` — which
raises IndexError when no piece survived.  The final shape is then
passed to `validate_shape`, but a false result is only logged: the
function returns the shape regardless. -/
def create_unit (cfg : GridfinityConfig) (width depth : ℚ)
    (blockShapes : List Shape)
    (straightAttempts cornerAttempts : List (Option Shape))
    (compoundFn : List Shape → Option Shape)
    (fuseFn : Shape → Shape → Option Shape) : Except String (List Shape) :=
  if width < cfg.MIN_WIDTH ∨ depth < cfg.MIN_DEPTH then
    Except.ok blockShapes
  else
    match compoundFn (surviving_pieces straightAttempts
        ++ surviving_pieces cornerAttempts) with
    | some c =>
      if !c.isNull then Except.ok [c]
      else
        match surviving_pieces straightAttempts
            ++ surviving_pieces cornerAttempts with
        | [] => Except.error "IndexError"
        | s0 :: rest => Except.ok [rest.foldl (safe_fuse fuseFn) s0]
    | none =>
      match surviving_pieces straightAttempts
          ++ surviving_pieces cornerAttempts with
      | [] => Except.error "IndexError"
      | s0 :: rest => Except.ok [rest.foldl (safe_fuse fuseFn) s0]

/-- Claim C7's hard-failure half is false on the code: with one valid
piece and a compound step that yields a non-null but INVALID shape,
`create_unit` logs the failed validation and still returns Ok with the
invalid shape — the build proceeds instead of failing hard. -/
theorem create_unit_returns_invalid_shape :
    create_unit defaultConfig 42 42 []
      [some ⟨false, true⟩] []
      (fun _ => some ⟨false, false⟩) (fun _ _ => none)
      = Except.ok [⟨false, false⟩] ∧
    validate_shape ⟨false, false⟩ = false := by
  constructor
  · norm_num [create_unit, surviving_pieces, validate_shape, defaultConfig]
  · rfl

/-- Claim C7, amended: each individual segment/arc/sweep failure only
skips that sub-piece (a raised or invalid piece leaves the result
unchanged, and the remaining pieces are still fused); the final fused
shape is validated but an invalid result is only logged — `create_unit`
returns it anyway (a usable compound is always returned as Ok) — and the
build raises only when no sub-piece survived and the compound step
produced nothing usable. -/
theorem create_unit_best_effort (cfg : GridfinityConfig) (width depth : ℚ)
    (blockShapes : List Shape) (sa ca : List (Option Shape)) (s : Shape)
    (compoundFn : List Shape → Option Shape)
    (fuseFn : Shape → Shape → Option Shape)
    (hdim : ¬(width < cfg.MIN_WIDTH ∨ depth < cfg.MIN_DEPTH)) :
    (create_unit cfg width depth blockShapes (none :: sa) ca compoundFn fuseFn
      = create_unit cfg width depth blockShapes sa ca compoundFn fuseFn) ∧
    (validate_shape s = false →
      create_unit cfg width depth blockShapes (some s :: sa) ca compoundFn fuseFn
        = create_unit cfg width depth blockShapes sa ca compoundFn fuseFn) ∧
    (∀ c, compoundFn (surviving_pieces sa ++ surviving_pieces ca) = some c →
      c.isNull = false →
      create_unit cfg width depth blockShapes sa ca compoundFn fuseFn
        = Except.ok [c]) ∧
    ((∃ e, create_unit cfg width depth blockShapes sa ca compoundFn fuseFn
        = Except.error e) ↔
      (surviving_pieces sa ++ surviving_pieces ca = [] ∧
        ∀ c, compoundFn (surviving_pieces sa ++ surviving_pieces ca) = some c →
          c.isNull = true)) := by
  refine ⟨?_, ?_, ?_, ?_⟩
  · unfold create_unit
    rw [if_neg hdim, if_neg hdim]
    have h1 : surviving_pieces (none :: sa) = surviving_pieces sa := by
      simp [surviving_pieces]
    rw [h1]
  · intro hs
    unfold create_unit
    rw [if_neg hdim, if_neg hdim]
    have h1 : surviving_pieces (some s :: sa) = surviving_pieces sa := by
      simp [surviving_pieces, hs]
    rw [h1]
  · intro c hc hnull
    unfold create_unit
    rw [if_neg hdim, hc]
    simp [hnull]
  · unfold create_unit
    rw [if_neg hdim]
    constructor
    · rintro ⟨e, he⟩
      rcases hcomp : compoundFn (surviving_pieces sa ++ surviving_pieces ca)
        with _ | c
      · rw [hcomp] at he
        rcases hall : surviving_pieces sa ++ surviving_pieces ca
          with _ | ⟨s0, rest⟩
        · constructor
          · first
            | exact hall
            | rfl
          · intro c hc
            first
            | exact absurd hc (by simp)
            | (rw [hcomp] at hc; exact absurd hc (by simp))
        · rw [hall] at he
          simp at he
      · rw [hcomp] at he
        by_cases hnull : c.isNull = true
        · rcases hall : surviving_pieces sa ++ surviving_pieces ca
            with _ | ⟨s0, rest⟩
          · constructor
            · first
              | exact hall
              | rfl
            · intro c' hc'
              first
              | (cases hc'; exact hnull)
              | (rw [hcomp] at hc'; cases hc'; exact hnull)
          · rw [hall] at he
            simp [hnull] at he
        · have hnull' : c.isNull = false := by
            cases h : c.isNull
            · rfl
            · exact absurd h hnull
          simp [hnull'] at he
    · rintro ⟨hall, hcnull⟩
      rcases hcomp : compoundFn (surviving_pieces sa ++ surviving_pieces ca)
        with _ | c
      · refine ⟨"IndexError", ?_⟩
        first
        | (rw [hcomp, hall]; try rfl)
        | (rw [hall]; try rfl)
        | (rw [hall] at hcomp ⊢; rw [hcomp]; try rfl)
      · have hn : c.isNull = true := hcnull c hcomp
        refine ⟨"IndexError", ?_⟩
        first
        | (rw [hcomp, hall]; try simp [hn])
        | (rw [hall]; try simp [hn])
        | (rw [hall] at hcomp ⊢; rw [hcomp]; try simp [hn])

/-- Witness for the amended claim C7 at a concrete unit: a 42x42 cell
whose first straight attempt raised, with one surviving valid piece and
an invalid compound result. -/
theorem create_unit_best_effort_witness :
    (¬((42 : ℚ) < defaultConfig.MIN_WIDTH ∨ (42 : ℚ) < defaultConfig.MIN_DEPTH)) ∧
    validate_shape ⟨true, false⟩ = false ∧
    ((create_unit defaultConfig 42 42 [] (none :: [some ⟨false, true⟩]) []
        (fun _ => some ⟨false, false⟩) (fun _ _ => none)
      = create_unit defaultConfig 42 42 [] [some ⟨false, true⟩] []
        (fun _ => some ⟨false, false⟩) (fun _ _ => none)) ∧
     (validate_shape (⟨true, false⟩ : Shape) = false →
      create_unit defaultConfig 42 42 [] (some ⟨true, false⟩ :: [some ⟨false, true⟩]) []
          (fun _ => some ⟨false, false⟩) (fun _ _ => none)
        = create_unit defaultConfig 42 42 [] [some ⟨false, true⟩] []
          (fun _ => some ⟨false, false⟩) (fun _ _ => none)) ∧
     (∀ c, (fun _ : List Shape => some (⟨false, false⟩ : Shape))
          (surviving_pieces [some ⟨false, true⟩] ++ surviving_pieces []) = some c →
        c.isNull = false →
        create_unit defaultConfig 42 42 [] [some ⟨false, true⟩] []
            (fun _ => some ⟨false, false⟩) (fun _ _ => none)
          = Except.ok [c]) ∧
     ((∃ e, create_unit defaultConfig 42 42 [] [some ⟨false, true⟩] []
          (fun _ => some ⟨false, false⟩) (fun _ _ => none)
        = Except.error e) ↔
      (surviving_pieces [some ⟨false, true⟩] ++ surviving_pieces [] = [] ∧
        ∀ c, (fun _ : List Shape => some (⟨false, false⟩ : Shape))
            (surviving_pieces [some ⟨false, true⟩] ++ surviving_pieces []) = some c →
          c.isNull = true))) := by
  have hdim : ¬((42 : ℚ) < defaultConfig.MIN_WIDTH ∨
      (42 : ℚ) < defaultConfig.MIN_DEPTH) := by
    norm_num [defaultConfig]
  exact ⟨hdim, rfl,
    create_unit_best_effort defaultConfig 42 42 [] [some ⟨false, true⟩] []
      ⟨true, false⟩ (fun _ => some ⟨false, false⟩) (fun _ _ => none) hdim⟩

/-- The numeric metadata dict of a persisted model (the dimension keys
compared by the cache lookup; a missing key is `none`). -/
structure ModelMetadata where
  width : Option ℚ
  depth : Option ℚ
  height : Option ℚ
deriving DecidableEq, Repr

/-- A persisted `Model` row: id, type, metadata, in query order. -/
structure DBModel where
  id : ℕ
  mtype : String
  model_metadata : ModelMetadata
deriving DecidableEq, Repr

/-- `crud.get_model_by_metadata` over the rows `db`.  Raises ValueError
on falsy arguments.  For type "bin" with all three dimension keys
present (resp. "baseplate" with width and depth), it collects ALL
exact matches into `matching_models` and returns `matching_models[0]` —
silently picking the first when several match; other types use exact
metadata comparison.  Returns `none` when nothing matches. -/
def get_model_by_metadata (db : List DBModel) (model_type : String)
    (md : ModelMetadata) : Except String (Option DBModel) :=
  if model_type = "" ∨ md = ⟨none, none, none⟩ then
    Except.error "ValueError"
  else
    if model_type = "bin" ∧ md.width.isSome ∧ md.depth.isSome ∧ md.height.isSome then
      Except.ok ((db.filter (fun m => decide (m.mtype = model_type))).filter
        (fun m => decide (m.model_metadata.width = md.width ∧
          m.model_metadata.depth = md.depth ∧
          m.model_metadata.height = md.height))).head?
    else if model_type = "baseplate" ∧ md.width.isSome ∧ md.depth.isSome then
      Except.ok ((db.filter (fun m => decide (m.mtype = model_type))).filter
        (fun m => decide (m.model_metadata.width = md.width ∧
          m.model_metadata.depth = md.depth))).head?
    else
      Except.ok ((db.filter (fun m => decide (m.mtype = model_type))).find?
        (fun m => decide (m.model_metadata = md)))

/-- Claim C8 is violated by the code, and the spec (and the dead
multiple-match guard in `get_or_create_bin_model`, unreachable because
crud never returns a list) states the clear intent: with two cached bin
models carrying the identical fingerprint (width 10, depth 20, height
30), the lookup silently returns the first match instead of surfacing a
consistency error to the caller. -/
theorem get_model_by_metadata_silently_resolves :
    get_model_by_metadata
      [⟨1, "bin", ⟨some 10, some 20, some 30⟩⟩,
       ⟨2, "bin", ⟨some 10, some 20, some 30⟩⟩]
      "bin" ⟨some 10, some 20, some 30⟩
      = Except.ok (some ⟨1, "bin", ⟨some 10, some 20, some 30⟩⟩) := by
  have hne : ¬(("bin" : String) = "" ∨
      (⟨some 10, some 20, some 30⟩ : ModelMetadata) = ⟨none, none, none⟩) := by
    intro h
    rcases h with h | h
    · exact absurd h (by decide)
    · simp at h
  have hbin : ("bin" : String) = "bin" ∧ (some (10 : ℚ)).isSome
      ∧ (some (20 : ℚ)).isSome ∧ (some (30 : ℚ)).isSome := by
    refine ⟨rfl, rfl, rfl, rfl⟩
  unfold get_model_by_metadata
  rw [if_neg hne, if_pos hbin]
  norm_num [List.filter, List.head?]
